import Mathlib

/-!
Shallow embedding of storage/raft_transport.go: the outbound queue table
with its per-destination delivery workers, the inbound dispatcher, and the
handler registry. Channels are modelled as lists of their buffered
contents; the concurrent scheduler is an explicit event trace; Go errors
are Option GoErr with none standing for nil.
-/

/-- Mirror of roachpb.ReplicaDescriptor, the routing key for outbound queues. -/
structure ReplicaDescriptor where
  nodeID : Nat
  storeID : Nat
  replicaID : Nat
deriving DecidableEq, Repr

/-- Raft message types; MsgSnap selects the snapshot traffic class. -/
inductive MsgType where
  | MsgSnap
  | MsgApp
  | MsgHeartbeat
  | MsgVote
deriving DecidableEq, Repr

/-- Fields of RaftMessageRequest that the transport inspects. msgTo mirrors
req.Message.To, which the inbound dispatcher quotes in its error. -/
structure RaftMessageRequest where
  toReplica : ReplicaDescriptor
  fromReplica : ReplicaDescriptor
  msgType : MsgType
  msgTo : Nat
  payload : Nat
deriving DecidableEq, Repr

/-- Go error values that the transport produces or passes along; a Go nil
error is Option.none around this type. -/
inductive GoErr where
  | resolution (code : Nat)
  | dial (code : Nat)
  | streamOpen (code : Nat)
  | stopper (code : Nat)
  | recv (code : Nat)
  | send (code : Nat)
  | handler (code : Nat)
  | unknownDestination (toNode : Nat)
deriving DecidableEq, Repr

/-- Outgoing messages are queued per-replica on a channel of this size. -/
def raftSendBufferSize : Nat := 100

/-- The traffic class of a request: true when it is a snapshot message,
mirroring isSnap in SendAsync. -/
def reqClass (req : RaftMessageRequest) : Bool :=
  decide (req.msgType = MsgType.MsgSnap)

/-- t.mu.queues, the two-level map bool to replica to channel; a channel is
represented by the list of its buffered, not yet consumed requests. -/
structure QueueTable where
  queues : Bool → Option (ReplicaDescriptor → Option (List RaftMessageRequest))

/-- The empty queue table of a fresh transport. -/
def QueueTable.empty : QueueTable := ⟨fun _ => none⟩

/-- Look up the channel stored for a class and destination. -/
def QueueTable.get (tbl : QueueTable) (isSnap : Bool) (r : ReplicaDescriptor) :
    Option (List RaftMessageRequest) :=
  ((tbl.queues isSnap).getD (fun _ => none)) r

/-- Store, replace or delete the channel for a class and destination,
creating the inner map when absent as SendAsync does. -/
def QueueTable.set (tbl : QueueTable) (isSnap : Bool) (r : ReplicaDescriptor)
    (q : Option (List RaftMessageRequest)) : QueueTable :=
  let inner := (tbl.queues isSnap).getD (fun _ => none)
  ⟨fun b => if b = isSnap then some (fun x => if x = r then q else inner x)
            else tbl.queues b⟩

/-- Everything one call to RaftSender.SendAsync produces: its boolean
return value, the queue table afterwards, whether a delivery worker was
successfully spawned, and the onError invocations made synchronously
inside the call (each is the error with the destination). -/
structure SendOutcome where
  ok : Bool
  tbl : QueueTable
  spawned : Bool
  onErrorCalls : List (Option GoErr × ReplicaDescriptor)

/-- RaftSender.SendAsync. runTaskErr is the result the supervised task
runner would give a spawn attempt: none means the worker registration is
accepted, some e means the stopper refuses it, e.g. during shutdown.
A missing table entry triggers creation plus a spawn attempt; the final
nonblocking channel send succeeds exactly when the buffer has room. -/
def sendAsync (tbl : QueueTable) (runTaskErr : Option GoErr)
    (req : RaftMessageRequest) : SendOutcome :=
  let isSnap := reqClass req
  let toReplica := req.toReplica
  let found := tbl.get isSnap toReplica
  let ch := found.getD []
  let spawnOutcome : Bool × List (Option GoErr × ReplicaDescriptor) :=
    if found.isNone then
      match runTaskErr with
      | none => (true, [])
      | some e => (false, [(some e, toReplica)])
    else (false, [])
  let ok := decide (ch.length < raftSendBufferSize)
  let ch2 := if ok then ch ++ [req] else ch
  { ok := ok
    tbl := tbl.set isSnap toReplica (some ch2)
    spawned := spawnOutcome.1
    onErrorCalls := spawnOutcome.2 }

/-- One scheduler decision for the main select of processQueue, together
with the oracles that step needs. stop: the stopper signal fires. idle:
the idle timer fires. streamErr: the companion reader task delivers an
error on errCh. deliver: the channel receive fires; sendErr is what
stream.Send returns for the dequeued request, and stopAtPublish tells
whether the stopper signal wins the snapshot-status select against the
publish on SnapshotStatusChan. enqueue: a concurrent SendAsync performs
its nonblocking channel send between two loop iterations. -/
inductive LoopEvent where
  | stop
  | idle
  | streamErr (e : GoErr)
  | deliver (sendErr : Option GoErr) (stopAtPublish : Bool)
  | enqueue (req : RaftMessageRequest)
deriving DecidableEq, Repr

/-- What a run of the processQueue main loop produces. sends lists every
stream.Send call in order with its result; published lists every
RaftSnapshotStatus put on SnapshotStatusChan in order; accepted lists the
concurrently enqueued requests whose channel send succeeded; queue is what
remains buffered; ret is some r when the loop returned with the Go value r
(none standing for a nil error) and Option.none when the event trace ran
out with the loop still live. -/
structure LoopResult where
  sends : List (RaftMessageRequest × Option GoErr)
  published : List (RaftMessageRequest × Option GoErr)
  accepted : List RaftMessageRequest
  queue : List RaftMessageRequest
  ret : Option (Option GoErr)
deriving Repr

/-- The main select loop of RaftTransport.processQueue, driven by an event
trace. A deliver event takes the head of the buffered channel, sends it,
publishes a RaftSnapshotStatus when the request is a snapshot (unless the
stopper wins that select, which returns nil), and returns the send error
when there is one. A deliver against an empty channel cannot fire and is
skipped. An enqueue event appends when the buffer has room, as the
nonblocking send of SendAsync does. -/
def processLoop : List LoopEvent → List RaftMessageRequest → LoopResult
  | [], q => { sends := [], published := [], accepted := [], queue := q, ret := none }
  | .stop :: _, q =>
      { sends := [], published := [], accepted := [], queue := q, ret := some none }
  | .idle :: _, q =>
      { sends := [], published := [], accepted := [], queue := q, ret := some none }
  | .streamErr e :: _, q =>
      { sends := [], published := [], accepted := [], queue := q, ret := some (some e) }
  | .enqueue req :: rest, q =>
      if q.length < raftSendBufferSize then
        let r := processLoop rest (q ++ [req])
        { r with accepted := req :: r.accepted }
      else processLoop rest q
  | .deliver sendErr stopAtPublish :: rest, q =>
      match q with
      | [] => processLoop rest []
      | req :: qrest =>
        if req.msgType = MsgType.MsgSnap then
          if stopAtPublish then
            { sends := [(req, sendErr)], published := [], accepted := [],
              queue := qrest, ret := some none }
          else
            match sendErr with
            | some e =>
                { sends := [(req, some e)], published := [(req, some e)],
                  accepted := [], queue := qrest, ret := some (some e) }
            | none =>
                let r := processLoop rest qrest
                { r with sends := (req, none) :: r.sends,
                         published := (req, none) :: r.published }
        else
          match sendErr with
          | some e =>
              { sends := [(req, some e)], published := [], accepted := [],
                queue := qrest, ret := some (some e) }
          | none =>
              let r := processLoop rest qrest
              { r with sends := (req, none) :: r.sends }

/-- The environment one run of processQueue executes in: results of the
address resolution, the grpc dial, opening the RaftMessage stream, the
registration of the companion reader task, and the scheduler trace for the
main loop. -/
structure WorkerEnv where
  resolveErr : Option GoErr
  dialErr : Option GoErr
  openErr : Option GoErr
  readerTaskErr : Option GoErr
  events : List LoopEvent
deriving Repr

/-- RaftTransport.processQueue: the prelude returns the first failure of
resolution, dial, stream open or reader-task registration; otherwise the
main loop runs on the buffered channel contents. -/
def processQueue (env : WorkerEnv) (q : List RaftMessageRequest) : LoopResult :=
  match env.resolveErr with
  | some e => { sends := [], published := [], accepted := [], queue := q, ret := some (some e) }
  | none =>
  match env.dialErr with
  | some e => { sends := [], published := [], accepted := [], queue := q, ret := some (some e) }
  | none =>
  match env.openErr with
  | some e => { sends := [], published := [], accepted := [], queue := q, ret := some (some e) }
  | none =>
  match env.readerTaskErr with
  | some e => { sends := [], published := [], accepted := [], queue := q, ret := some (some e) }
  | none => processLoop env.events q

/-- What the worker goroutine spawned by SendAsync leaves behind: the queue
table after it finishes and the onError invocations it makes. -/
structure WorkerOutcome where
  tbl : QueueTable
  onErrorCalls : List (Option GoErr × ReplicaDescriptor)
  loop : LoopResult

/-- The body of the worker goroutine in RaftSender.SendAsync: it runs
processQueue on the channel stored for its key, hands the returned value
together with the destination to onError, and deletes the table entry.
When the trace leaves the loop still live nothing has happened yet beyond
the sends: no callback runs and the entry stays, holding what remains
buffered. -/
def runWorker (tbl : QueueTable) (isSnap : Bool) (toReplica : ReplicaDescriptor)
    (env : WorkerEnv) : WorkerOutcome :=
  let q := (tbl.get isSnap toReplica).getD []
  let r := processQueue env q
  match r.ret with
  | none =>
      { tbl := tbl.set isSnap toReplica (some r.queue), onErrorCalls := [], loop := r }
  | some res =>
      { tbl := tbl.set isSnap toReplica none,
        onErrorCalls := [(res, toReplica)], loop := r }

/-- t.mu.handlers: the map from a store identifier to its registered
raftMessageHandler; a handler returns the Go error of consuming a request,
none standing for nil. -/
abbrev HandlerMap := Nat → Option (RaftMessageRequest → Option GoErr)

namespace RaftTransport

/-- RaftTransport.Listen: register a handler for a store, overwriting any
earlier one. -/
def Listen (m : HandlerMap) (storeID : Nat)
    (handler : RaftMessageRequest → Option GoErr) : HandlerMap :=
  fun s => if s = storeID then some handler else m s

/-- RaftTransport.Stop: unregister the handler of a store. -/
def Stop (m : HandlerMap) (storeID : Nat) : HandlerMap :=
  fun s => if s = storeID then none else m s

end RaftTransport

/-- One step of the inbound read loop: stream.Recv yields either a request
or an error. -/
inductive RecvEvent where
  | msg (req : RaftMessageRequest)
  | fail (e : GoErr)

/-- The inner read loop of RaftTransport.RaftMessage: receive, look the
destination store up, fail the stream on a missing handler with the
unknown-destination error quoting req.Message.To, otherwise run the
handler and fail on its error. The result is the value put on errCh; none
means the trace ended with the loop still reading. -/
def inboundLoop (handlers : HandlerMap) : List RecvEvent → Option GoErr
  | [] => none
  | .fail e :: _ => some e
  | .msg req :: rest =>
    match handlers req.toReplica.storeID with
    | none => some (GoErr.unknownDestination req.msgTo)
    | some handler =>
      match handler req with
      | some e => some e
      | none => inboundLoop handlers rest

/-- How one inbound session ends on the server side: with a Go error
returned to the rpc layer, or with the clean SendAndClose acknowledgement
of a RaftMessageResponse. -/
inductive InboundOutcome where
  | err (e : GoErr)
  | cleanClose
deriving DecidableEq, Repr

/-- RaftTransport.RaftMessage: when registering the reader task fails that
error is returned; otherwise the outer select either observes the drain
signal first (drainFirst) and answers with the clean close, or returns
whatever the read loop put on errCh. The value is none when neither side
of the select has fired within the trace. -/
def raftMessage (handlers : HandlerMap) (runTaskErr : Option GoErr)
    (drainFirst : Bool) (events : List RecvEvent) : Option InboundOutcome :=
  match runTaskErr with
  | some e => some (.err e)
  | none =>
    if drainFirst then some .cleanClose
    else (inboundLoop handlers events).map .err

/-- A sample destination replica used in concrete runs. -/
def dest0 : ReplicaDescriptor := ⟨1, 2, 3⟩

/-- A sample source replica used in concrete runs. -/
def src0 : ReplicaDescriptor := ⟨4, 5, 6⟩

/-- A normal-class request to dest0 with a distinguishing payload. -/
def appReq (n : Nat) : RaftMessageRequest := ⟨dest0, src0, .MsgApp, 0, n⟩

/-- A snapshot-class request to dest0 with a distinguishing payload. -/
def snapReq (n : Nat) : RaftMessageRequest := ⟨dest0, src0, .MsgSnap, 0, n⟩

/-- An empty handler registry. -/
def noHandlers : HandlerMap := fun _ => none

/-- A handler that consumes every request without error. -/
def okHandler : RaftMessageRequest → Option GoErr := fun _ => none

theorem QueueTable.get_set_same (tbl : QueueTable) (b : Bool) (r : ReplicaDescriptor)
    (q : Option (List RaftMessageRequest)) : (tbl.set b r q).get b r = q := by
  simp [QueueTable.get, QueueTable.set]

theorem sendAsync_tbl (tbl : QueueTable) (rte : Option GoErr) (req : RaftMessageRequest) :
    (sendAsync tbl rte req).tbl
      = tbl.set (reqClass req) req.toReplica
          (some (if (sendAsync tbl rte req).ok
                 then ((tbl.get (reqClass req) req.toReplica).getD []) ++ [req]
                 else (tbl.get (reqClass req) req.toReplica).getD [])) := by
  simp only [sendAsync]

theorem sendAsync_ok (tbl : QueueTable) (rte : Option GoErr) (req : RaftMessageRequest) :
    (sendAsync tbl rte req).ok
      = decide (((tbl.get (reqClass req) req.toReplica).getD []).length
          < raftSendBufferSize) := by
  simp only [sendAsync]

/-- C2: SendAsync accepts a message exactly when the destination queue has
room; on true the message is appended at the tail of that queue, on false
the queue is left unchanged, and unchanged differs from appended, so the
message was placed on the queue if and only if true was returned. The
model is a total function, so the call completes without waiting on the
queue in every case. -/
theorem sendAsync_ok_iff_enqueued (tbl : QueueTable) (rte : Option GoErr)
    (req : RaftMessageRequest) :
    ((sendAsync tbl rte req).ok = true ↔
      ((tbl.get (reqClass req) req.toReplica).getD []).length < raftSendBufferSize)
    ∧ ((sendAsync tbl rte req).ok = true →
      (sendAsync tbl rte req).tbl.get (reqClass req) req.toReplica
        = some (((tbl.get (reqClass req) req.toReplica).getD []) ++ [req]))
    ∧ ((sendAsync tbl rte req).ok = false →
      (sendAsync tbl rte req).tbl.get (reqClass req) req.toReplica
        = some ((tbl.get (reqClass req) req.toReplica).getD [])
      ∧ ((tbl.get (reqClass req) req.toReplica).getD []) ++ [req]
          ≠ (tbl.get (reqClass req) req.toReplica).getD []) := by
  refine ⟨by rw [sendAsync_ok]; exact decide_eq_true_iff, ?_, ?_⟩
  · intro h
    rw [sendAsync_tbl, QueueTable.get_set_same, h]
    simp
  · intro h
    refine ⟨by rw [sendAsync_tbl, QueueTable.get_set_same, h]; simp, ?_⟩
    intro hc
    have := congrArg List.length hc
    simp at this

/-- C2 witness: a concrete send against an empty table is accepted and the
message appears as the sole element of the fresh queue. -/
theorem sendAsync_ok_iff_enqueued_witness :
    (sendAsync QueueTable.empty none (appReq 0)).ok = true
    ∧ (sendAsync QueueTable.empty none (appReq 0)).tbl.get (reqClass (appReq 0))
        (appReq 0).toReplica = some [appReq 0] := by
  have h := sendAsync_ok_iff_enqueued QueueTable.empty none (appReq 0)
  have hok : (sendAsync QueueTable.empty none (appReq 0)).ok = true := by decide
  refine ⟨hok, ?_⟩
  have := h.2.1 hok
  simpa [QueueTable.empty, QueueTable.get] using this

/-- C9: Listen installs exactly the given handler for the given store and
touches no other store; Stop removes the handler of the given store,
touches no other store, and is the pointwise identity when the store had
no handler registered. -/
theorem listen_stop_registry (m : HandlerMap) (s : Nat)
    (handler : RaftMessageRequest → Option GoErr) :
    RaftTransport.Listen m s handler s = some handler
    ∧ (∀ s', s' ≠ s → RaftTransport.Listen m s handler s' = m s')
    ∧ RaftTransport.Stop m s s = none
    ∧ (∀ s', s' ≠ s → RaftTransport.Stop m s s' = m s')
    ∧ (m s = none → ∀ s', RaftTransport.Stop m s s' = m s') := by
  refine ⟨by simp [RaftTransport.Listen], ?_, by simp [RaftTransport.Stop], ?_, ?_⟩
  · intro s' h
    simp [RaftTransport.Listen, h]
  · intro s' h
    simp [RaftTransport.Stop, h]
  · intro h s'
    by_cases hs : s' = s
    · subst hs
      simp [RaftTransport.Stop, h]
    · simp [RaftTransport.Stop, hs]

/-- C9 witness: on an empty registry, registering store 1 makes it resolve
to that handler, leaves store 2 empty, and Stop clears and frames. -/
theorem listen_stop_registry_witness :
    RaftTransport.Listen noHandlers 1 okHandler 1 = some okHandler
    ∧ RaftTransport.Listen noHandlers 1 okHandler 2 = noHandlers 2
    ∧ RaftTransport.Stop noHandlers 1 1 = none
    ∧ RaftTransport.Stop noHandlers 1 2 = noHandlers 2 := by
  have h := listen_stop_registry noHandlers 1 okHandler
  exact ⟨h.1, h.2.1 2 (by decide), h.2.2.1, h.2.2.2.1 2 (by decide)⟩

/-- C8: with the reader task registered, whenever the drain signal wins
the outer select the session ends with the clean SendAndClose
acknowledgement, a value distinct from every error outcome. -/
theorem drain_clean_close (handlers : HandlerMap) (events : List RecvEvent) :
    raftMessage handlers none true events = some InboundOutcome.cleanClose
    ∧ ∀ e, InboundOutcome.cleanClose ≠ InboundOutcome.err e := by
  exact ⟨rfl, fun e h => by cases h⟩

/-- C8 witness: concrete instance, with a pending inbound message that is
left unread once the drain signal is observed. -/
theorem drain_clean_close_witness :
    raftMessage noHandlers none true [RecvEvent.msg (appReq 0)]
      = some InboundOutcome.cleanClose
    ∧ InboundOutcome.cleanClose ≠ InboundOutcome.err (GoErr.recv 0) :=
  ⟨(drain_clean_close noHandlers [RecvEvent.msg (appReq 0)]).1,
   (drain_clean_close noHandlers [RecvEvent.msg (appReq 0)]).2 (GoErr.recv 0)⟩

theorem inboundLoop_append (handlers : HandlerMap) (pre suf : List RecvEvent)
    (h : inboundLoop handlers pre = none) :
    inboundLoop handlers (pre ++ suf) = inboundLoop handlers suf := by
  induction pre with
  | nil => rfl
  | cons ev rest ih =>
    cases ev with
    | fail e => simp [inboundLoop] at h
    | msg req =>
      rw [List.cons_append]
      simp only [inboundLoop] at h ⊢
      cases hh : handlers req.toReplica.storeID with
      | none => simp [hh] at h
      | some f =>
        simp only [hh] at h ⊢
        cases hf : f req with
        | some e => simp [hf] at h
        | none =>
          simp only [hf] at h ⊢
          exact ih h

/-- C6: once the read loop has consumed a prefix without failing, a
message for a store with no registered handler makes the session return
the explicit unknown-destination error naming the raft recipient, and a
message whose handler fails makes the session return that handler error;
neither is dropped with the loop continuing. -/
theorem inbound_unknown_or_handler_error (handlers : HandlerMap)
    (pre : List RecvEvent) (req : RaftMessageRequest) (rest : List RecvEvent)
    (hpre : inboundLoop handlers pre = none) :
    (handlers req.toReplica.storeID = none →
      raftMessage handlers none false (pre ++ RecvEvent.msg req :: rest)
        = some (InboundOutcome.err (GoErr.unknownDestination req.msgTo)))
    ∧ (∀ f e, handlers req.toReplica.storeID = some f → f req = some e →
      raftMessage handlers none false (pre ++ RecvEvent.msg req :: rest)
        = some (InboundOutcome.err e)) := by
  constructor
  · intro hnone
    show (inboundLoop handlers (pre ++ RecvEvent.msg req :: rest)).map _ = _
    rw [inboundLoop_append handlers pre _ hpre]
    simp only [inboundLoop, hnone]
    rfl
  · intro f e hf he
    show (inboundLoop handlers (pre ++ RecvEvent.msg req :: rest)).map _ = _
    rw [inboundLoop_append handlers pre _ hpre]
    simp only [inboundLoop, hf, he]
    rfl

/-- C6 witness: on an empty registry the first inbound message ends the
session with the unknown-destination error, and with a failing handler
registered for its store the session ends with that handler error. -/
theorem inbound_unknown_or_handler_error_witness :
    raftMessage noHandlers none false [RecvEvent.msg (appReq 0)]
      = some (InboundOutcome.err (GoErr.unknownDestination 0))
    ∧ raftMessage (RaftTransport.Listen noHandlers 2 (fun _ => some (GoErr.handler 9)))
        none false [RecvEvent.msg (appReq 0)]
      = some (InboundOutcome.err (GoErr.handler 9)) := by
  constructor
  · exact (inbound_unknown_or_handler_error noHandlers [] (appReq 0) [] rfl).1 rfl
  · exact (inbound_unknown_or_handler_error
      (RaftTransport.Listen noHandlers 2 (fun _ => some (GoErr.handler 9)))
      [] (appReq 0) [] rfl).2 (fun _ => some (GoErr.handler 9)) (GoErr.handler 9)
      rfl rfl

/-- An environment whose worker terminates by idle timeout. -/
def idleEnv : WorkerEnv := ⟨none, none, none, none, [LoopEvent.idle]⟩

/-- An environment whose worker terminates because the companion reader
reports a stream error. -/
def recvErrEnv : WorkerEnv := ⟨none, none, none, none, [LoopEvent.streamErr (GoErr.recv 7)]⟩

/-- C1 counterexample: a worker that terminates by idle timeout, with no
error anywhere, still invokes onError — once, with the nil error and its
destination — so a termination not caused by an error does invoke the
callback, contrary to the claim. -/
theorem idle_termination_invokes_onError :
    (runWorker QueueTable.empty false dest0 idleEnv).onErrorCalls = [(none, dest0)]
    ∧ (runWorker QueueTable.empty false dest0 idleEnv).onErrorCalls ≠ []
    ∧ (runWorker QueueTable.empty false dest0 idleEnv).loop.ret = some none := by
  refine ⟨rfl, ?_, rfl⟩
  intro h
  simp [runWorker, processQueue, processLoop, idleEnv] at h

/-- C1 amended: every worker termination invokes onError exactly once,
with the destination and with the Go value processQueue returned — the
terminating error when the termination was caused by one, and nil on idle
timeout or graceful shutdown. -/
theorem runWorker_onError_exactly_once (tbl : QueueTable) (isSnap : Bool)
    (d : ReplicaDescriptor) (env : WorkerEnv) (r : Option GoErr)
    (hterm : (processQueue env ((tbl.get isSnap d).getD [])).ret = some r) :
    (runWorker tbl isSnap d env).onErrorCalls = [(r, d)] := by
  unfold runWorker
  simp only [hterm]

/-- C1 amended witness: a worker whose stream reader fails reports exactly
that error, once, with its destination. -/
theorem runWorker_onError_exactly_once_witness :
    (runWorker QueueTable.empty false dest0 recvErrEnv).onErrorCalls
      = [(some (GoErr.recv 7), dest0)] :=
  runWorker_onError_exactly_once QueueTable.empty false dest0 recvErrEnv
    (some (GoErr.recv 7)) rfl

/-- C5: whatever made the worker terminate, the entry for its key is gone
from the table afterwards, and a next SendAsync for the same key creates a
brand-new queue holding only the new message and spawns a fresh worker. -/
theorem termination_removes_entry_and_rebuilds (tbl : QueueTable) (isSnap : Bool)
    (d : ReplicaDescriptor) (env : WorkerEnv) (r : Option GoErr)
    (hterm : (processQueue env ((tbl.get isSnap d).getD [])).ret = some r)
    (req : RaftMessageRequest) (hdest : req.toReplica = d)
    (hclass : reqClass req = isSnap) :
    (runWorker tbl isSnap d env).tbl.get isSnap d = none
    ∧ (sendAsync (runWorker tbl isSnap d env).tbl none req).spawned = true
    ∧ (sendAsync (runWorker tbl isSnap d env).tbl none req).ok = true
    ∧ (sendAsync (runWorker tbl isSnap d env).tbl none req).tbl.get isSnap d
        = some [req] := by
  have hdel : (runWorker tbl isSnap d env).tbl.get isSnap d = none := by
    unfold runWorker
    simp only [hterm]
    exact QueueTable.get_set_same _ _ _ _
  refine ⟨hdel, ?_, ?_, ?_⟩
  · simp [sendAsync, hdest, hclass, hdel]
  · simp [sendAsync, hdest, hclass, hdel, raftSendBufferSize]
  · rw [sendAsync_tbl]
    rw [hclass, hdest, QueueTable.get_set_same]
    rw [sendAsync_ok, hclass, hdest, hdel]
    simp [raftSendBufferSize]

/-- C5 witness: after a concrete error-caused termination the entry is
gone and a concrete follow-up send rebuilds a one-element queue with a
fresh worker. -/
theorem termination_removes_entry_and_rebuilds_witness :
    (runWorker QueueTable.empty false dest0 recvErrEnv).tbl.get false dest0 = none
    ∧ (sendAsync (runWorker QueueTable.empty false dest0 recvErrEnv).tbl none
        (appReq 1)).spawned = true
    ∧ (sendAsync (runWorker QueueTable.empty false dest0 recvErrEnv).tbl none
        (appReq 1)).ok = true
    ∧ (sendAsync (runWorker QueueTable.empty false dest0 recvErrEnv).tbl none
        (appReq 1)).tbl.get false dest0 = some [appReq 1] :=
  termination_removes_entry_and_rebuilds QueueTable.empty false dest0 recvErrEnv
    (some (GoErr.recv 7)) rfl (appReq 1) rfl rfl

/-- C10: when the task runner refuses the spawn, SendAsync reports that
error to onError synchronously, spawns nothing, yet leaves the freshly
created entry in the table and still enqueues, returning true; and any
later SendAsync that finds an existing entry attempts no spawn, calls
onError not at all, and returns true exactly while the queue has room. -/
theorem spawn_failure_keeps_entry (tbl : QueueTable) (req : RaftMessageRequest)
    (e : GoErr) (hnone : tbl.get (reqClass req) req.toReplica = none) :
    ((sendAsync tbl (some e) req).onErrorCalls = [(some e, req.toReplica)]
    ∧ (sendAsync tbl (some e) req).spawned = false
    ∧ (sendAsync tbl (some e) req).ok = true
    ∧ (sendAsync tbl (some e) req).tbl.get (reqClass req) req.toReplica = some [req])
    ∧ ∀ (tbl2 : QueueTable) (req2 : RaftMessageRequest)
        (q : List RaftMessageRequest) (rte : Option GoErr),
        tbl2.get (reqClass req2) req2.toReplica = some q →
        (sendAsync tbl2 rte req2).spawned = false
        ∧ (sendAsync tbl2 rte req2).onErrorCalls = []
        ∧ ((sendAsync tbl2 rte req2).ok = true ↔ q.length < raftSendBufferSize) := by
  constructor
  · refine ⟨?_, ?_, ?_, ?_⟩
    · simp [sendAsync, hnone]
    · simp [sendAsync, hnone]
    · simp [sendAsync, hnone, raftSendBufferSize]
    · rw [sendAsync_tbl, QueueTable.get_set_same, sendAsync_ok, hnone]
      simp [raftSendBufferSize]
  · intro tbl2 req2 q rte hq
    refine ⟨?_, ?_, ?_⟩
    · simp [sendAsync, hq]
    · simp [sendAsync, hq]
    · rw [sendAsync_ok, hq]
      simp

/-- C10 witness: a concrete spawn-refused send against an empty table,
followed by a concrete send that finds the surviving entry. -/
theorem spawn_failure_keeps_entry_witness :
    ((sendAsync QueueTable.empty (some (GoErr.stopper 1)) (appReq 0)).onErrorCalls
        = [(some (GoErr.stopper 1), dest0)]
    ∧ (sendAsync QueueTable.empty (some (GoErr.stopper 1)) (appReq 0)).ok = true)
    ∧ ((sendAsync (sendAsync QueueTable.empty (some (GoErr.stopper 1)) (appReq 0)).tbl
          none (appReq 1)).spawned = false
    ∧ (sendAsync (sendAsync QueueTable.empty (some (GoErr.stopper 1)) (appReq 0)).tbl
          none (appReq 1)).ok = true) := by
  have h := spawn_failure_keeps_entry QueueTable.empty (appReq 0) (GoErr.stopper 1)
    (by rfl)
  have hfollow := h.2 (sendAsync QueueTable.empty (some (GoErr.stopper 1)) (appReq 0)).tbl
    (appReq 1) [appReq 0] none h.1.2.2.2
  exact ⟨⟨h.1.1, h.1.2.2.1⟩, hfollow.1,
    hfollow.2.2.mpr (by simp [raftSendBufferSize])⟩

theorem processLoop_fifo (evs : List LoopEvent) (q : List RaftMessageRequest) :
    (processLoop evs q).sends.map Prod.fst ++ (processLoop evs q).queue
      = q ++ (processLoop evs q).accepted := by
  induction evs generalizing q with
  | nil => simp [processLoop]
  | cons ev rest ih =>
    cases ev with
    | stop => simp [processLoop]
    | idle => simp [processLoop]
    | streamErr e => simp [processLoop]
    | enqueue req =>
      by_cases h : q.length < raftSendBufferSize
      · simp only [processLoop, if_pos h]
        rw [ih (q ++ [req])]
        simp
      · simp only [processLoop, if_neg h]
        exact ih q
    | deliver se sp =>
      cases q with
      | nil => simpa [processLoop] using ih []
      | cons req qrest =>
        by_cases hs : req.msgType = MsgType.MsgSnap
        · cases sp with
          | true => simp [processLoop, hs]
          | false =>
            cases se with
            | some e => simp [processLoop, hs]
            | none => simp [processLoop, hs, ih qrest]
        · cases se with
          | some e => simp [processLoop, hs]
          | none => simp [processLoop, hs, ih qrest]

/-- C3: the requests a worker run hands to stream.Send, in send order,
followed by the requests still buffered, are exactly the initial buffer
followed by the concurrently accepted enqueues, in enqueue order: every
message written to the peer stream is written in the relative order in
which it was successfully enqueued, and no queue was shared with any other
destination or class for this to involve. -/
theorem processQueue_fifo (env : WorkerEnv) (q : List RaftMessageRequest) :
    (processQueue env q).sends.map Prod.fst ++ (processQueue env q).queue
      = q ++ (processQueue env q).accepted := by
  obtain ⟨re, de, oe, rte, evs⟩ := env
  cases re with
  | some e => simp [processQueue]
  | none =>
  cases de with
  | some e => simp [processQueue]
  | none =>
  cases oe with
  | some e => simp [processQueue]
  | none =>
  cases rte with
  | some e => simp [processQueue]
  | none => exact processLoop_fifo evs q

/-- True when no deliver step of the trace has the stopper signal winning
the snapshot-status select. -/
def noShutdownAtPublish : List LoopEvent → Bool
  | [] => true
  | LoopEvent.deliver _ b :: rest => !b && noShutdownAtPublish rest
  | _ :: rest => noShutdownAtPublish rest

theorem processLoop_snapshot_status (evs : List LoopEvent)
    (q : List RaftMessageRequest) (h : noShutdownAtPublish evs = true) :
    (processLoop evs q).published
      = (processLoop evs q).sends.filter (fun p => reqClass p.1) := by
  induction evs generalizing q with
  | nil => simp [processLoop]
  | cons ev rest ih =>
    cases ev with
    | stop => simp [processLoop]
    | idle => simp [processLoop]
    | streamErr e => simp [processLoop]
    | enqueue req =>
      have h' : noShutdownAtPublish rest = true := by
        simpa [noShutdownAtPublish] using h
      by_cases hq : q.length < raftSendBufferSize <;>
        simp only [processLoop, hq, if_pos, if_neg, if_true, if_false] <;>
        exact ih _ h'
    | deliver se sp =>
      have hsp : sp = false := by
        cases sp
        · rfl
        · simp [noShutdownAtPublish] at h
      have h' : noShutdownAtPublish rest = true := by
        subst hsp
        simpa [noShutdownAtPublish] using h
      subst hsp
      cases q with
      | nil => simpa [processLoop] using ih [] h'
      | cons req qrest =>
        by_cases hs : req.msgType = MsgType.MsgSnap
        · cases se with
          | some e => simp [processLoop, hs, reqClass, List.filter_cons]
          | none =>
            simp [processLoop, hs, reqClass, List.filter_cons, ih qrest h']
        · cases se with
          | some e => simp [processLoop, hs, reqClass, List.filter_cons]
          | none =>
            simp [processLoop, hs, reqClass, List.filter_cons, ih qrest h']

/-- C4 amended: as long as the shutdown signal never wins the publish
select, the RaftSnapshotStatus values a worker run publishes are exactly
its snapshot-typed send attempts, each exactly once, paired with the
resulting send error (nil on success), in completion order — for failed
sends just as for successful ones. When the shutdown signal does win one,
that status is not published and the worker returns nil. -/
theorem processQueue_snapshot_status (env : WorkerEnv)
    (q : List RaftMessageRequest) (h : noShutdownAtPublish env.events = true) :
    (processQueue env q).published
      = (processQueue env q).sends.filter (fun p => reqClass p.1) := by
  obtain ⟨re, de, oe, rte, evs⟩ := env
  simp only at h
  cases re with
  | some e => simp [processQueue]
  | none =>
  cases de with
  | some e => simp [processQueue]
  | none =>
  cases oe with
  | some e => simp [processQueue]
  | none =>
  cases rte with
  | some e => simp [processQueue]
  | none => exact processLoop_snapshot_status evs q h

/-- An environment delivering two snapshot requests, the first send
succeeding and the second failing, with no shutdown race. -/
def twoSnapEnv : WorkerEnv :=
  ⟨none, none, none, none,
   [LoopEvent.deliver none false, LoopEvent.deliver (some (GoErr.send 3)) false]⟩

/-- C4 amended witness: both snapshot sends of a concrete run, the
successful one with a nil error and the failed one with its error, appear
exactly once as statuses. -/
theorem processQueue_snapshot_status_witness :
    noShutdownAtPublish twoSnapEnv.events = true
    ∧ (processQueue twoSnapEnv [snapReq 0, snapReq 1]).published
        = (processQueue twoSnapEnv [snapReq 0, snapReq 1]).sends.filter
            (fun p => reqClass p.1)
    ∧ (processQueue twoSnapEnv [snapReq 0, snapReq 1]).published
        = [(snapReq 0, none), (snapReq 1, some (GoErr.send 3))] :=
  ⟨by decide,
   processQueue_snapshot_status twoSnapEnv [snapReq 0, snapReq 1] (by decide),
   by decide⟩

/-- An environment in which the stopper signal wins the snapshot-status
select of the single delivery. -/
def stopRaceEnv : WorkerEnv := ⟨none, none, none, none, [LoopEvent.deliver none true]⟩

/-- C4 counterexample: a worker dequeues a snapshot request and completes
the send, but because the shutdown signal wins the publish select, no
status at all is published for it — not exactly one — and the worker
terminates returning nil. -/
theorem snapshot_status_lost_on_shutdown :
    (processQueue stopRaceEnv [snapReq 0]).sends = [(snapReq 0, none)]
    ∧ (processQueue stopRaceEnv [snapReq 0]).published = []
    ∧ (processQueue stopRaceEnv [snapReq 0]).ret = some none := by
  decide

/-- The queue table after n successive SendAsync calls to dest0, with the
worker of the first call never draining. -/
def fillTable : Nat → QueueTable
  | 0 => QueueTable.empty
  | n + 1 => (sendAsync (fillTable n) none (appReq n)).tbl

theorem fillTable_get (n : Nat) (hn : n ≤ 100) :
    ((fillTable n).get false dest0).getD [] = (List.range n).map appReq := by
  induction n with
  | zero => rfl
  | succ k ih =>
    have hklt : k < 100 := Nat.lt_of_succ_le hn
    show ((sendAsync (fillTable k) none (appReq k)).tbl.get false dest0).getD []
      = (List.range (k + 1)).map appReq
    rw [sendAsync_tbl]
    rw [show reqClass (appReq k) = false from rfl,
        show (appReq k).toReplica = dest0 from rfl, QueueTable.get_set_same]
    rw [sendAsync_ok, show reqClass (appReq k) = false from rfl,
        show (appReq k).toReplica = dest0 from rfl, ih (Nat.le_of_lt hklt)]
    simp [raftSendBufferSize, hklt, List.range_succ]

/-- C7: the buffer constant is exactly 100; with the worker never
draining, the 100th SendAsync to a destination is accepted, the 101st
returns false, and afterwards the queue still holds exactly the first 100
messages in order — the 101st was never placed on it. -/
theorem queue_capacity_exactly_100 :
    raftSendBufferSize = 100
    ∧ (sendAsync (fillTable 99) none (appReq 99)).ok = true
    ∧ (sendAsync (fillTable 100) none (appReq 100)).ok = false
    ∧ (sendAsync (fillTable 100) none (appReq 100)).tbl.get false dest0
        = some ((List.range 100).map appReq)
    ∧ appReq 100 ∉ (List.range 100).map appReq := by
  have h99 : (sendAsync (fillTable 99) none (appReq 99)).ok = true := by
    rw [sendAsync_ok, show reqClass (appReq 99) = false from rfl,
        show (appReq 99).toReplica = dest0 from rfl,
        fillTable_get 99 (by norm_num)]
    simp [raftSendBufferSize]
  have h100 : (sendAsync (fillTable 100) none (appReq 100)).ok = false := by
    rw [sendAsync_ok, show reqClass (appReq 100) = false from rfl,
        show (appReq 100).toReplica = dest0 from rfl,
        fillTable_get 100 (by norm_num)]
    simp [raftSendBufferSize]
  refine ⟨rfl, h99, h100, ?_, ?_⟩
  · rw [sendAsync_tbl, show reqClass (appReq 100) = false from rfl,
        show (appReq 100).toReplica = dest0 from rfl, QueueTable.get_set_same,
        h100, fillTable_get 100 (by norm_num)]
    simp
  · intro hmem
    obtain ⟨m, hm, heq⟩ := List.mem_map.mp hmem
    have : m = 100 := congrArg RaftMessageRequest.payload heq
    rw [this] at hm
    exact absurd (List.mem_range.mp hm) (by omega)

/-- C7 witness: the acceptance boundary itself, extracted at the concrete
fill: the 100th send is accepted and the 101st is refused. -/
theorem queue_capacity_exactly_100_witness :
    (sendAsync (fillTable 99) none (appReq 99)).ok = true
    ∧ (sendAsync (fillTable 100) none (appReq 100)).ok = false :=
  ⟨queue_capacity_exactly_100.2.1, queue_capacity_exactly_100.2.2.1⟩

